import Mathlib

set_option autoImplicit false

/-!
Verification of the MongoDB settings provider in src/index.js: a write-through
settings cache keyed by tenant (guild) identity, backed by a document store.

Modelling conventions. JavaScript values stored in a settings document are an
inductive type; JS objects are ordered association lists keyed by strings; the
persistent store is an association list keyed by the encoded guild identifier
(the literal number 0 for the global tenant, the identifier string otherwise),
mirroring the updateGuild translation in the source. An asynchronous store
write is modelled by a Boolean flag saying whether the issued write settles
successfully; an operation returns its post-state together with an Except
value for its settled result. In-place mutation of a cached settings object is
modelled by writing the updated document back into the cache exactly when the
cache already held a document for that tenant, which matches the aliasing
behaviour of the source.

Method dispatch. The source declares getGuildID static (line 231), yet every
provider operation invokes it through the instance as this.getGuildID (lines
100, 116, 132 and 147). A static method lives on the constructor, not on the
prototype chain of the instance, and the discord-akairo Provider base class
supplies no getGuildID; so the property lookup yields undefined and each of
these calls throws a TypeError before any cache read, cache write or store
write. The model renders the lookup as thisGetGuildID, the value of the
getGuildID property on the instance, which is none; the remainder of each
operation body is translated anyway, for fidelity, under the branch in which
the lookup would have produced a function, but that branch is unreachable.
-/

/-- Model of a JavaScript value as held in a settings document. -/
inductive JSVal where
  | undef
  | null
  | bool (b : Bool)
  | num (n : Int)
  | str (s : String)
  | obj (fields : List (String × JSVal))

/-- Lookup in an association list, first match wins; JS object key access. -/
def findVal {κ α : Type} [DecidableEq κ] : List (κ × α) → κ → Option α
  | [], _ => none
  | (k, v) :: rest, key => if k = key then some v else findVal rest key

/-- Write a key in an association list; JS object key assignment, which keeps
the position of an existing key and appends a new one. -/
def setVal {κ α : Type} [DecidableEq κ] : List (κ × α) → κ → α → List (κ × α)
  | [], key, v => [(key, v)]
  | (k, w) :: rest, key, v =>
      if k = key then (k, v) :: rest else (k, w) :: setVal rest key v

/-- Remove a key from an association list; the JS delete operator. -/
def delVal {κ α : Type} [DecidableEq κ] : List (κ × α) → κ → List (κ × α)
  | [], _ => []
  | (k, w) :: rest, key =>
      if k = key then delVal rest key else (k, w) :: delVal rest key

/-!
Model of the JavaScript global isNaN applied to a string argument, as used by
the source on line 234 via `!isNaN(guild)`. isNaN coerces its argument with
ToNumber; for strings that is the ECMA-262 StringToNumber conversion: strip
leading and trailing whitespace, map the empty remainder to 0, and otherwise
parse a StrNumericLiteral (optional sign with a decimal literal or Infinity,
or an unsigned radix literal 0x/0o/0b). Only the ASCII whitespace characters
and no-break space are modelled; other Unicode whitespace code points do not
occur in the inputs considered here.
-/

/-- Whitespace characters stripped by StringToNumber. -/
def jsWS (c : Char) : Bool :=
  c = ' ' || c = '\t' || c = '\n' || c = '\r' ||
  c = '\x0b' || c = '\x0c' || c = '\xa0'

/-- Strip leading and trailing JS whitespace. -/
def jsTrim (cs : List Char) : List Char :=
  ((cs.dropWhile jsWS).reverse.dropWhile jsWS).reverse

/-- Hexadecimal digit. -/
def isHexDigitChar (c : Char) : Bool :=
  c.isDigit || (decide ('a' ≤ c) && decide (c ≤ 'f')) ||
    (decide ('A' ≤ c) && decide (c ≤ 'F'))

/-- Octal digit. -/
def isOctDigitChar (c : Char) : Bool :=
  decide ('0' ≤ c) && decide (c ≤ '7')

/-- Binary digit. -/
def isBinDigitChar (c : Char) : Bool :=
  c = '0' || c = '1'

/-- Drop one leading sign character if present. -/
def stripSignChar (cs : List Char) : List Char :=
  match cs with
  | c :: rest => if c = '+' ∨ c = '-' then rest else c :: rest
  | [] => []

/-- Match an ExponentPart followed by end of input, or end of input. -/
def matchExpPart (cs : List Char) : Bool :=
  match cs with
  | [] => true
  | c :: rest =>
      if c = 'e' ∨ c = 'E' then
        let d := stripSignChar rest
        !d.isEmpty && d.all Char.isDigit
      else false

/-- Match the remainder of an unsigned decimal literal after its leading
digits, given whether any leading digits were present. -/
def matchAfterInt (hasInt : Bool) (rest : List Char) : Bool :=
  match rest with
  | '.' :: r =>
      (hasInt || !(r.takeWhile Char.isDigit).isEmpty) &&
        matchExpPart (r.dropWhile Char.isDigit)
  | r => hasInt && matchExpPart r

/-- Match a StrUnsignedDecimalLiteral against the whole input. -/
def matchUnsignedDec (cs : List Char) : Bool :=
  if cs = ['I', 'n', 'f', 'i', 'n', 'i', 't', 'y'] then true
  else
    matchAfterInt (!(cs.takeWhile Char.isDigit).isEmpty)
      (cs.dropWhile Char.isDigit)

/-- Match an optionally signed decimal literal against the whole input. -/
def matchSignedDec (cs : List Char) : Bool :=
  matchUnsignedDec (stripSignChar cs)

/-- Match a StrNumericLiteral against the whole input. -/
def matchNumericLiteral (cs : List Char) : Bool :=
  match cs with
  | c0 :: c1 :: rest =>
      if c0 = '0' ∧ (c1 = 'x' ∨ c1 = 'X') then
        !rest.isEmpty && rest.all isHexDigitChar
      else if c0 = '0' ∧ (c1 = 'o' ∨ c1 = 'O') then
        !rest.isEmpty && rest.all isOctDigitChar
      else if c0 = '0' ∧ (c1 = 'b' ∨ c1 = 'B') then
        !rest.isEmpty && rest.all isBinDigitChar
      else matchSignedDec (c0 :: c1 :: rest)
  | cs => matchSignedDec cs

/-- JavaScript isNaN on a string argument: true when StringToNumber yields
NaN. The empty or all-whitespace string converts to 0, hence is not NaN. -/
def jsIsNaNStr (s : String) : Bool :=
  let cs := jsTrim s.data
  if cs = [] then false else !matchNumericLiteral cs

namespace MongoDBProvider

/-- A reference passed to the provider operations as the guild argument: a
Guild instance carrying its id, a string, null, or any other JS value. -/
inductive GuildRef where
  | guildObj (id : String)
  | str (s : String)
  | null
  | other

/-- Errors surfaced by the provider: the TypeError thrown by getGuildID and a
rejection of the issued store write. -/
inductive JSError where
  | typeError
  | storeError
deriving DecidableEq

/-- Lines 231 to 236: a Guild instance resolves to its id; the string global
or null resolve to the string global; any other string resolves to itself
exactly when isNaN rejects it; everything else throws a TypeError. -/
def getGuildID : GuildRef → Except JSError String
  | GuildRef.guildObj i => Except.ok i
  | GuildRef.str s =>
      if s = "global" then Except.ok "global"
      else if jsIsNaNStr s then Except.error JSError.typeError
      else Except.ok s
  | GuildRef.null => Except.ok "global"
  | GuildRef.other => Except.error JSError.typeError

/-- A settings document: a JS object mapping string keys to values. -/
def SettingsDoc : Type := List (String × JSVal)

/-- Key of a record in the settings collection: the guild field is the number
0 for the global tenant, or the guild identifier string. -/
inductive StoreKey where
  | zero
  | id (s : String)
deriving DecidableEq

/-- Line 219: the global sentinel is encoded as 0 in the store. -/
def toStoreKey (g : String) : StoreKey :=
  if g = "global" then StoreKey.zero else StoreKey.id g

/-- Lines 218 to 223: updateOne on the settings collection matching the guild
field, with a $set of guild and settings and upsert enabled, i.e. replace the
settings of the matched record or insert a fresh record. -/
def updateGuild (store : List (StoreKey × SettingsDoc)) (g : String)
    (settings : SettingsDoc) : List (StoreKey × SettingsDoc) :=
  setVal store (toStoreKey g) settings

/-- Provider state: the items cache map and the settings collection. -/
structure ProviderState where
  items : List (String × SettingsDoc)
  store : List (StoreKey × SettingsDoc)

/-- JS member read on a settings object: the stored value, or undefined when
the key is missing. -/
def readKey (settings : SettingsDoc) (key : String) : JSVal :=
  (findVal settings key).getD JSVal.undef

/-- The getGuildID property as looked up on the provider instance by the
expression this.getGuildID in lines 100, 116, 132 and 147. The method is
declared static on line 231, so it lives on the MongoDBProvider constructor
and not on the instance or its prototype chain, and the discord-akairo
Provider base class defines no such member: the lookup yields undefined, and
calling its result throws a TypeError. -/
def thisGetGuildID : Option (GuildRef → Except JSError String) := none

/-- Lines 99 to 106. Line 100 evaluates this.getGuildID(guild); the lookup
yields undefined, so every call throws a TypeError there, before the cache is
read. The remaining lines, translated under the unreachable branch in which
the lookup had produced a function, would return the cached value at the key
when it is defined and the default otherwise, reading only the cache. -/
def get (st : ProviderState) (g : GuildRef) (key : String)
    (defaultValue : JSVal) : Except JSError JSVal :=
  match thisGetGuildID with
  | none => Except.error JSError.typeError
  | some resolve =>
    match resolve g with
    | Except.error e => Except.error e
    | Except.ok gid =>
      match findVal st.items gid with
      | some settings =>
          match readKey settings key with
          | JSVal.undef => Except.ok defaultValue
          | v => Except.ok v
      | none => Except.ok defaultValue

/-- Lines 115 to 123. Line 116 evaluates this.getGuildID(guild); the lookup
yields undefined, so every call throws a TypeError there, before the cache
mutation on lines 117 to 119 and the store write on line 121. The remaining
lines, translated under the unreachable branch, would assign the value into
the cached (or fresh) document, write it into the cache, then await the store
upsert and return the value on success. -/
def set (st : ProviderState) (g : GuildRef) (key : String) (value : JSVal)
    (storeOk : Bool) : ProviderState × Except JSError JSVal :=
  match thisGetGuildID with
  | none => (st, Except.error JSError.typeError)
  | some resolve =>
    match resolve g with
    | Except.error e => (st, Except.error e)
    | Except.ok gid =>
      let settings := (findVal st.items gid).getD []
      let settings2 := setVal settings key value
      let items2 := setVal st.items gid settings2
      if storeOk then
        (ProviderState.mk items2 (updateGuild st.store gid settings2),
          Except.ok value)
      else
        (ProviderState.mk items2 st.store, Except.error JSError.storeError)

/-- Lines 131 to 139. Line 132 evaluates this.getGuildID(guild); the lookup
yields undefined, so every call throws a TypeError there, before any document
is read or shrunk and before the store write on line 137. The remaining
lines, translated under the unreachable branch, would read the value at the
key, remove the key (mutating a cached document in place, never inserting a
fresh one), then await the store upsert of the shrunken document and return
the removed value on success. -/
def delete (st : ProviderState) (g : GuildRef) (key : String)
    (storeOk : Bool) : ProviderState × Except JSError JSVal :=
  match thisGetGuildID with
  | none => (st, Except.error JSError.typeError)
  | some resolve =>
    match resolve g with
    | Except.error e => (st, Except.error e)
    | Except.ok gid =>
      let settings := (findVal st.items gid).getD []
      let value := readKey settings key
      let settings2 := delVal settings key
      let items2 :=
        match findVal st.items gid with
        | some _ => setVal st.items gid settings2
        | none => st.items
      if storeOk then
        (ProviderState.mk items2 (updateGuild st.store gid settings2),
          Except.ok value)
      else
        (ProviderState.mk items2 st.store, Except.error JSError.storeError)

/-- Lines 146 to 149. Line 147 evaluates the argument expression
this.getGuildID(guild) before items.delete can run; the lookup yields
undefined, so every call throws a TypeError there, and neither the cache
removal nor the store write on line 148 happens. The remaining lines,
translated under the unreachable branch, would remove the cache entry of the
tenant and await the store upsert of an empty settings document for it. -/
def clear (st : ProviderState) (g : GuildRef) (storeOk : Bool) :
    ProviderState × Except JSError Unit :=
  match thisGetGuildID with
  | none => (st, Except.error JSError.typeError)
  | some resolve =>
    match resolve g with
    | Except.error e => (st, Except.error e)
    | Except.ok gid =>
      let items2 := delVal st.items gid
      if storeOk then
        (ProviderState.mk items2 (updateGuild st.store gid []), Except.ok ())
      else
        (ProviderState.mk items2 st.store, Except.error JSError.storeError)

/-!
Model of the execution order of init, lines 46 to 90. The body first calls
find().forEach on the settings collection and then attaches the six listeners
of the listeners map to the client. The promise returned by forEach is not
awaited, and the document callbacks of a cursor run in later event-loop turns,
never during the synchronous run that issued the cursor; so under the Node
event loop the statements of the body run synchronously in source order, and
the per-document callbacks (which write documents into the cache) run only
after that synchronous run has finished.
-/

/-- Observable events during init: a store document written into the cache by
the forEach callback, or a listener attached to the client. -/
inductive InitEvent where
  | cacheDoc (guild : String)
  | attachListener (event : String)

/-- Statements of the init body, in source order: the un-awaited forEach on
line 49, then the attaching loop on line 89. -/
inductive InitStmt where
  | issueFindForEach
  | attach (event : String)

/-- Event names attached on line 89, in the order the listeners map is built
on lines 58 to 87. -/
def listenerEvents : List String :=
  ["commandPrefixChange", "commandStatusChange", "categoryStatusChange",
   "guildCreate", "load", "categoryRegister"]

/-- The init body in source order. -/
def initBody : List InitStmt :=
  InitStmt.issueFindForEach :: listenerEvents.map InitStmt.attach

/-- Run the init body for a store whose records carry the given guild ids:
each statement runs synchronously in order; the forEach call only defers its
per-document callbacks, which run after the synchronous run finishes. The
result is the full event order. -/
def runInit (storeDocs : List String) : List InitEvent :=
  let step : List InitEvent × List InitEvent → InitStmt →
      List InitEvent × List InitEvent := fun acc stmt =>
    match stmt with
    | InitStmt.issueFindForEach =>
        (acc.1, acc.2 ++ storeDocs.map InitEvent.cacheDoc)
    | InitStmt.attach e =>
        (acc.1 ++ [InitEvent.attachListener e], acc.2)
  let r := initBody.foldl step ([], [])
  r.1 ++ r.2

end MongoDBProvider

/-!
Digit strings survive StringToNumber: needed for the identity-resolution
characterization.
-/

theorem ws_not_digit (c : Char) (h : jsWS c = true) : Char.isDigit c = false := by
  simp [jsWS] at h
  rcases h with ((((((h | h) | h) | h) | h) | h) | h) <;> subst h <;> decide

theorem dropWhile_ws_of_digits (l : List Char) (h : l.all Char.isDigit = true) :
    l.dropWhile jsWS = l := by
  cases l with
  | nil => rfl
  | cons c cs =>
    have hc : Char.isDigit c = true :=
      List.all_eq_true.mp h c (List.mem_cons_self c cs)
    have hw : jsWS c = false := by
      cases hw : jsWS c
      · rfl
      · rw [ws_not_digit c hw] at hc
        exact absurd hc (by decide)
    simp [List.dropWhile_cons, hw]

theorem jsTrim_digits (l : List Char) (h : l.all Char.isDigit = true) :
    jsTrim l = l := by
  have h2 : l.reverse.all Char.isDigit = true := by
    rw [List.all_eq_true]
    intro x hx
    exact List.all_eq_true.mp h x (List.mem_reverse.mp hx)
  simp [jsTrim, dropWhile_ws_of_digits l h, dropWhile_ws_of_digits l.reverse h2]

theorem takeWhile_digits (l : List Char) (h : l.all Char.isDigit = true) :
    l.takeWhile Char.isDigit = l := by
  induction l with
  | nil => rfl
  | cons c cs ih =>
    have hc : Char.isDigit c = true :=
      List.all_eq_true.mp h c (List.mem_cons_self c cs)
    have hcs : cs.all Char.isDigit = true := by
      rw [List.all_eq_true]
      intro x hx
      exact List.all_eq_true.mp h x (List.mem_cons_of_mem c hx)
    simp [List.takeWhile_cons, hc, ih hcs]

theorem dropWhile_digits (l : List Char) (h : l.all Char.isDigit = true) :
    l.dropWhile Char.isDigit = [] := by
  induction l with
  | nil => rfl
  | cons c cs ih =>
    have hc : Char.isDigit c = true :=
      List.all_eq_true.mp h c (List.mem_cons_self c cs)
    have hcs : cs.all Char.isDigit = true := by
      rw [List.all_eq_true]
      intro x hx
      exact List.all_eq_true.mp h x (List.mem_cons_of_mem c hx)
    simp [List.dropWhile_cons, hc, ih hcs]

theorem matchSignedDec_digits (l : List Char) (hne : l ≠ [])
    (h : l.all Char.isDigit = true) : matchSignedDec l = true := by
  have hstrip : stripSignChar l = l := by
    cases l with
    | nil => rfl
    | cons c cs =>
      have hc : Char.isDigit c = true :=
        List.all_eq_true.mp h c (List.mem_cons_self c cs)
      have : ¬(c = '+' ∨ c = '-') := by
        rintro (rfl | rfl) <;> exact absurd hc (by decide)
      simp [stripSignChar, this]
  have hinf : l ≠ ['I', 'n', 'f', 'i', 'n', 'i', 't', 'y'] := by
    intro e
    rw [e] at h
    exact absurd h (by decide)
  have hemp : l.isEmpty = false := by
    cases l with
    | nil => exact absurd rfl hne
    | cons c cs => rfl
  simp [matchSignedDec, hstrip, matchUnsignedDec, hinf, takeWhile_digits l h,
    dropWhile_digits l h, matchAfterInt, matchExpPart, hemp]

theorem matchNumericLiteral_digits (l : List Char) (hne : l ≠ [])
    (h : l.all Char.isDigit = true) : matchNumericLiteral l = true := by
  have hsd := matchSignedDec_digits l hne h
  cases l with
  | nil => exact absurd rfl hne
  | cons c0 t =>
    cases t with
    | nil => exact hsd
    | cons c1 rest =>
      have h1 : Char.isDigit c1 = true :=
        List.all_eq_true.mp h c1
          (List.mem_cons_of_mem c0 (List.mem_cons_self c1 rest))
      have hx : ¬(c0 = '0' ∧ (c1 = 'x' ∨ c1 = 'X')) := by
        rintro ⟨-, rfl | rfl⟩ <;> exact absurd h1 (by decide)
      have ho : ¬(c0 = '0' ∧ (c1 = 'o' ∨ c1 = 'O')) := by
        rintro ⟨-, rfl | rfl⟩ <;> exact absurd h1 (by decide)
      have hb : ¬(c0 = '0' ∧ (c1 = 'b' ∨ c1 = 'B')) := by
        rintro ⟨-, rfl | rfl⟩ <;> exact absurd h1 (by decide)
      simpa [matchNumericLiteral, hx, ho, hb] using hsd

theorem jsIsNaNStr_digits (s : String) (hne : s.data ≠ [])
    (h : s.data.all Char.isDigit = true) : jsIsNaNStr s = false := by
  simp [jsIsNaNStr, jsTrim_digits s.data h, hne,
    matchNumericLiteral_digits s.data hne h]

open MongoDBProvider

/-- C5 counterexample: the string consisting of the characters 1, dot, 5 does
not consist only of digits, yet getGuildID returns it unchanged instead of
failing, because isNaN accepts any numeric-looking string. -/
theorem c5_counterexample :
    getGuildID (GuildRef.str "1.5") = Except.ok "1.5" ∧
    ("1.5").data.all Char.isDigit = false := by
  exact ⟨rfl, by decide⟩

/-- C5 amended: getGuildID returns the id of a Guild instance; the string
global and null resolve to global; any other string is returned unchanged
exactly when JavaScript StringToNumber does not yield NaN on it (digit-only
strings qualify, but so do decimal, signed, exponent, radix-prefixed and
whitespace-padded numeric strings and the empty string), and fails with a
TypeError otherwise; any other reference fails with a TypeError. -/
theorem c5_resolution (s : String) (hs : s ≠ "global") :
    (∀ i, getGuildID (GuildRef.guildObj i) = Except.ok i) ∧
    getGuildID (GuildRef.str "global") = Except.ok "global" ∧
    getGuildID GuildRef.null = Except.ok "global" ∧
    getGuildID (GuildRef.str s) =
      (if jsIsNaNStr s then Except.error JSError.typeError else Except.ok s) ∧
    (s.data ≠ [] → s.data.all Char.isDigit = true →
      getGuildID (GuildRef.str s) = Except.ok s) ∧
    getGuildID GuildRef.other = Except.error JSError.typeError := by
  refine ⟨fun i => rfl, rfl, rfl, ?_, ?_, rfl⟩
  · simp [getGuildID, hs]
  · intro h1 h2
    simp [getGuildID, hs, jsIsNaNStr_digits s h1 h2]

/-- C5 witness: the digit string 42 resolves to itself. -/
theorem c5_resolution_witness : getGuildID (GuildRef.str "42") = Except.ok "42" :=
  (c5_resolution "42" (by decide)).2.2.2.2.1 (by decide) (by decide)

/-- C1 counterexample: at the concrete input of the claim, the first set call
already rejects with the TypeError thrown by the this.getGuildID dispatch and
stores nothing, and the final get rejects the same way instead of returning
the deep merge holding both fields. -/
theorem c1_counterexample :
    (MongoDBProvider.set (ProviderState.mk [] []) (GuildRef.str "global") "k"
      (JSVal.obj [("a", JSVal.num 1)]) true).2 =
      Except.error JSError.typeError ∧
    MongoDBProvider.get ((MongoDBProvider.set ((MongoDBProvider.set
      (ProviderState.mk [] []) (GuildRef.str "global") "k"
      (JSVal.obj [("a", JSVal.num 1)]) true).1) (GuildRef.str "global") "k"
      (JSVal.obj [("b", JSVal.num 2)]) true).1) (GuildRef.str "global") "k"
      JSVal.undef = Except.error JSError.typeError ∧
    (Except.error JSError.typeError : Except JSError JSVal) ≠
      Except.ok (JSVal.obj [("a", JSVal.num 1), ("b", JSVal.num 2)]) :=
  ⟨rfl, rfl, fun h => Except.noConfusion h⟩

/-- C1 amended: no merge of structured values ever happens, because set never
stores anything: every set call throws the TypeError of the this.getGuildID
dispatch before the cache write and the store write, leaving the provider
state unchanged, and every subsequent get throws the same TypeError instead
of returning a merged or replaced value. -/
theorem c1_set_throws_no_merge (st : ProviderState) (g : GuildRef)
    (key : String) (v1 v2 d : JSVal) (ok1 ok2 : Bool) :
    MongoDBProvider.set st g key v1 ok1 =
      (st, Except.error JSError.typeError) ∧
    MongoDBProvider.get ((MongoDBProvider.set ((MongoDBProvider.set st g key
      v1 ok1).1) g key v2 ok2).1) g key d = Except.error JSError.typeError :=
  ⟨rfl, rfl⟩

/-- C2 counterexample: delete on a tenant with no cached document does not
fail with a NoEntry error: it fails with the TypeError of the this.getGuildID
dispatch, leaving the state unchanged, and it fails with that same TypeError
even when the tenant does have a cached document, so the failure is not tied
to the absence of a document at all. -/
theorem c2_counterexample :
    MongoDBProvider.delete (ProviderState.mk [] []) (GuildRef.str "global")
      "k" true = (ProviderState.mk [] [], Except.error JSError.typeError) ∧
    (MongoDBProvider.delete
      (ProviderState.mk [("global", [("k", JSVal.num 1)])] [])
      (GuildRef.str "global") "k" true).2 = Except.error JSError.typeError :=
  ⟨rfl, rfl⟩

/-- C2 amended: delete always fails synchronously with the TypeError thrown
by the this.getGuildID dispatch, before any cache access or store write,
whether or not the tenant has a cached document; no NoEntry error exists in
the code. -/
theorem c2_delete_always_typeerror (st : ProviderState) (g : GuildRef)
    (key : String) (ok : Bool) :
    MongoDBProvider.delete st g key ok =
      (st, Except.error JSError.typeError) :=
  rfl

/-- C3 counterexample: clearing tenant 42 removes nothing: the call throws
the TypeError of the this.getGuildID dispatch while evaluating the argument
of items.delete, so afterwards the cache still holds the document of the
tenant and the store still holds its record. -/
theorem c3_counterexample :
    MongoDBProvider.clear (ProviderState.mk [("42", [("k", JSVal.str "v")])]
      [(StoreKey.id "42", [("k", JSVal.str "v")])]) (GuildRef.str "42") true =
      (ProviderState.mk [("42", [("k", JSVal.str "v")])]
        [(StoreKey.id "42", [("k", JSVal.str "v")])],
       Except.error JSError.typeError) ∧
    findVal (MongoDBProvider.clear
      (ProviderState.mk [("42", [("k", JSVal.str "v")])]
        [(StoreKey.id "42", [("k", JSVal.str "v")])])
      (GuildRef.str "42") true).1.items "42" ≠ none := by
  refine ⟨rfl, ?_⟩
  intro h
  exact Option.noConfusion ((rfl : findVal (MongoDBProvider.clear
    (ProviderState.mk [("42", [("k", JSVal.str "v")])]
      [(StoreKey.id "42", [("k", JSVal.str "v")])])
    (GuildRef.str "42") true).1.items "42" =
      some [("k", JSVal.str "v")]).symm.trans h)

/-- C3 amended: clear removes the tenant entry from neither the cache nor the
store: every call throws the TypeError of the this.getGuildID dispatch before
items.delete runs and before any store operation is issued, leaving the whole
provider state unchanged. -/
theorem c3_clear_removes_nothing (st : ProviderState) (g : GuildRef)
    (ok : Bool) :
    MongoDBProvider.clear st g ok = (st, Except.error JSError.typeError) ∧
    (MongoDBProvider.clear st g ok).1.items = st.items ∧
    (MongoDBProvider.clear st g ok).1.store = st.store :=
  ⟨rfl, rfl, rfl⟩

/-- C4: with one record in the store, init attaches every listener before any
document is written into the cache: the run of init puts all six listener
attachments first and the caching of the record last, because the forEach
promise is never awaited; so the bulk load does not complete before event
subscriptions are attached, and a listener can observe the incomplete cache. -/
theorem c4_listeners_attached_before_load :
    runInit ["42"] =
      listenerEvents.map InitEvent.attachListener ++ [InitEvent.cacheDoc "42"] ∧
    (runInit ["42"]).head? =
      some (InitEvent.attachListener "commandPrefixChange") ∧
    (runInit ["42"]).getLast? = some (InitEvent.cacheDoc "42") :=
  ⟨rfl, rfl, rfl⟩

/-- C6: write-through visibility never occurs: at the failing input, set
rejects with the TypeError of the this.getGuildID dispatch before any cache
write, so it never resolves, and the subsequent get rejects the same way
instead of returning the written value; the code contradicts its own JSDoc,
which documents set as returning the value that was set. -/
theorem c6_set_never_resolves :
    MongoDBProvider.set (ProviderState.mk [] []) GuildRef.null "k"
      (JSVal.num 3) true = (ProviderState.mk [] [],
        Except.error JSError.typeError) ∧
    MongoDBProvider.get (MongoDBProvider.set (ProviderState.mk [] [])
      GuildRef.null "k" (JSVal.num 3) true).1 GuildRef.null "k"
      (JSVal.str "d") = Except.error JSError.typeError :=
  ⟨rfl, rfl⟩

/-- C7: the claimed scenario is unreachable: set throws the TypeError of the
this.getGuildID dispatch before the cache mutation of lines 117 to 119 and
before issuing the store write of line 121, so no StoreError can ever
propagate and no cache mutation exists to be left unrolled back; even with
the issued write configured to fail, the result is the dispatch TypeError
with the state unchanged. -/
theorem c7_set_fails_before_store (st : ProviderState) (g : GuildRef)
    (key : String) (v : JSVal) :
    MongoDBProvider.set st g key v false =
      (st, Except.error JSError.typeError) :=
  rfl

/-- C8: get never returns stored values or defaults: at the failing input,
where the cached global document defines key f as the boolean false, beside
an empty string and a zero, get rejects with the TypeError of the
this.getGuildID dispatch before reading the cache; the definedness check of
line 103 that the claim describes is unreachable. -/
theorem c8_get_never_returns :
    MongoDBProvider.get (ProviderState.mk [("global",
      [("e", JSVal.str ""), ("z", JSVal.num 0), ("f", JSVal.bool false)])] [])
      GuildRef.null "f" (JSVal.str "d") = Except.error JSError.typeError :=
  rfl

/-- C9: frame property: set, delete and clear at a reference resolving to one
tenant leave the cached document, and its presence or absence, of every other
tenant unchanged. It holds because each operation throws the TypeError of the
this.getGuildID dispatch before touching the cache, leaving every entry, in
particular that of the other tenant, exactly as it was. -/
theorem c9_frame (st : ProviderState) (g : GuildRef) (gid key t2 : String)
    (v : JSVal) (ok : Bool) (hg : getGuildID g = Except.ok gid)
    (hne : t2 ≠ gid) :
    findVal (MongoDBProvider.set st g key v ok).1.items t2 =
      findVal st.items t2 ∧
    findVal (MongoDBProvider.delete st g key ok).1.items t2 =
      findVal st.items t2 ∧
    findVal (MongoDBProvider.clear st g ok).1.items t2 =
      findVal st.items t2 :=
  ⟨rfl, rfl, rfl⟩

/-- C9 witness: a set aimed at the global tenant leaves the cached document
of tenant 7 unchanged. -/
theorem c9_witness :
    findVal (MongoDBProvider.set
      (ProviderState.mk [("7", [("a", JSVal.num 1)])] []) GuildRef.null "k"
      (JSVal.num 2) true).1.items "7" = some [("a", JSVal.num 1)] :=
  (c9_frame (ProviderState.mk [("7", [("a", JSVal.num 1)])] []) GuildRef.null
    "global" "k" "7" (JSVal.num 2) true rfl (by decide)).1

/-- C10: delete cannot complete at all: at the failing input, a tenant with
no cached document, delete rejects with the TypeError of the this.getGuildID
dispatch; the cache indeed still has no entry for the tenant, but no store
write is issued either, so the error-free completion, the undefined return
value and the empty-document upsert that lines 133 to 138 would produce are
all unreachable. -/
theorem c10_delete_throws :
    MongoDBProvider.delete (ProviderState.mk [] []) (GuildRef.str "12345")
      "k" true = (ProviderState.mk [] [], Except.error JSError.typeError) :=
  rfl
